import Mathlib

/-!
Verification of the proxy-pool manager of `src/app/proxy_manager.py`
(MASX AI proxy service), as a shallow embedding in Lean 4.

Modelling conventions:
* A Python string is embedded as `List Char` (`PyStr`), so that Python's
  `str.split` semantics can be stated and proved by structural induction.
* Time is embedded as `Nat` seconds: `datetime.now()` becomes an explicit
  `now : Nat` argument, `timedelta(minutes=6)` becomes `proxyExpiration = 360`,
  and datetime comparison/addition become `Nat` comparison/addition
  (`isoformat` is injective on datetimes, so stats fields carry the
  underlying time value).
* Network effects are oracles passed as arguments: the outcome of
  `requests.get` on the proxy-source URL is a `FetchOutcome`
  (`.ok body` for a 2xx response body, `.error` for a
  `requests.exceptions.RequestException`, which includes the
  `raise_for_status` path); the outcome of validating one candidate
  (`__test_single_proxy` run in an executor) is an `Except PyExn Bool`.
* `ProxyManager`'s class-level mutable attributes `_proxies`,
  `__proxy_timestamp` and `__refresh_count` form the state `PMState`.
  `__proxy_timestamp` is `datetime.now()` at class-definition time and every
  assignment writes `datetime.now()`, so it is never `None`; the dead
  `is None` / falsiness guards of `_get_next_refresh_time` and `get_stats`
  are therefore elided and the field is a plain `Nat`.
-/

/-- A Python `str`, embedded as its list of characters. -/
abbrev PyStr := List Char

/-- A Python exception value raised inside a validator call (only its
presence matters to the pool manager, never its payload). -/
inductive PyExn where
  | exn : PyExn
deriving DecidableEq

/-- Outcome of the `requests.get(url)` + `raise_for_status()` pair in
`ProxyManager.__get_proxies` (source lines 145-146): either the response
body text, or a `requests.exceptions.RequestException`. -/
inductive FetchOutcome where
  | ok : PyStr → FetchOutcome
  | error : FetchOutcome
deriving DecidableEq

instance : DecidableEq (Except PyExn Bool) := fun x y =>
  match x, y with
  | .ok a, .ok b =>
      if h : a = b then .isTrue (congrArg Except.ok h)
      else .isFalse (fun hh => h (Except.ok.inj hh))
  | .error a, .error b =>
      if h : a = b then .isTrue (congrArg Except.error h)
      else .isFalse (fun hh => h (Except.error.inj hh))
  | .ok _, .error _ => .isFalse (fun hh => Except.noConfusion hh)
  | .error _, .ok _ => .isFalse (fun hh => Except.noConfusion hh)

/-- Python's `str.split(sep)` for a one-character separator, on the
character list: scans the input, cutting at every occurrence of `sep` and
keeping empty segments (so `"a\n\nb".split("\n") = ["a","","b"]` and a
trailing separator yields a trailing `""`). `acc` holds the current
segment, reversed. -/
def pySplitAux (sep : Char) : List Char → List Char → List PyStr
  | [], acc => [acc.reverse]
  | c :: cs, acc =>
      if c = sep then acc.reverse :: pySplitAux sep cs []
      else pySplitAux sep cs (c :: acc)

/-- Python's `s.split(sep)` for a one-character separator. -/
def pySplit (sep : Char) (s : PyStr) : List PyStr := pySplitAux sep s []

/-- Joining with a one-character separator; the left inverse of `pySplit`. -/
def joinWith (sep : Char) : List PyStr → PyStr
  | [] => []
  | [p] => p
  | p :: ps => p ++ sep :: joinWith sep ps

/-- `ProxyManager.__get_proxies` (source lines 133-152): fetch the
configured source URL; on success return `response.text.split("\n")`
(note: no filtering of blank segments), on `RequestException` print and
return `[]`. -/
def getProxies (outcome : FetchOutcome) : List PyStr :=
  match outcome with
  | .ok body => pySplit '\n' body
  | .error => []

/-- The class-level mutable state of `ProxyManager`: `_proxies` (line 42),
`__proxy_timestamp` (line 49) and `__refresh_count` (line 54). -/
structure PMState where
  proxies : List PyStr
  timestamp : Nat
  refreshCount : Nat
deriving DecidableEq

/-- `timedelta(minutes=6)` (source line 48), in seconds. -/
def proxyExpiration : Nat := 6 * 60

/-- The state at process start: `_proxies = []`, `__proxy_timestamp =
datetime.now()` evaluated at class-definition time `t0`, and
`__refresh_count = 0`. -/
def initState (t0 : Nat) : PMState :=
  { proxies := [], timestamp := t0, refreshCount := 0 }

/-- Source lines 72-74 of `proxies_async`: if the pool is non-empty
(`if cls._proxies:`) and `__proxy_timestamp + __proxy_expiration <
datetime.now()`, clear the pool. -/
def checkPhase (s : PMState) (now : Nat) : PMState :=
  if s.proxies.isEmpty then s
  else if s.timestamp + proxyExpiration < now then { s with proxies := [] }
  else s

/-- Source lines 83-85 of `proxies_async` (also the body of
`refresh_proxies`, lines 101-103): bind `_proxies` to the fetched list and
set `__proxy_timestamp` to `datetime.now()`. Note that `__refresh_count`
is not touched anywhere in the source. -/
def storePhase (s : PMState) (now : Nat) (fetched : List PyStr) : PMState :=
  { s with proxies := fetched, timestamp := now }

/-- `ProxyManager.proxies_async` (source lines 65-87): expire the pool if
stale, then, if the pool is empty, fetch (`__get_proxies`) and store the
result untested — the `__test_proxy` call on line 82 is commented out in
the source, as is the `async with cls.__lock` on line 70. Returns the pool
together with the post-state. -/
def proxiesAsync (s : PMState) (now : Nat) (outcome : FetchOutcome) :
    List PyStr × PMState :=
  let s1 := checkPhase s now
  if s1.proxies.isEmpty then
    let s2 := storePhase s1 now (getProxies outcome)
    (s2.proxies, s2)
  else (s1.proxies, s1)

/-- `ProxyManager.refresh_proxies` (source lines 89-103): unconditionally
fetch and store (again with the `__test_proxy` call commented out). -/
def refreshProxies (s : PMState) (now : Nat) (outcome : FetchOutcome) : PMState :=
  storePhase s now (getProxies outcome)

/-- `ProxyManager.get_random_proxy` (source lines 252-260): `None` when
the pool is empty, otherwise `random.choice(cls._proxies)` — the random
draw is modelled by the oracle index `pick`, reduced mod the pool length.
The method assigns nothing, so the state is returned unchanged. -/
def getRandomProxy (s : PMState) (pick : Nat) : Option PyStr × PMState :=
  if s.proxies.isEmpty then (none, s)
  else (s.proxies.get? (pick % s.proxies.length), s)

/-- `ProxyManager._get_next_refresh_time` (source lines 262-269):
`__proxy_timestamp + __proxy_expiration` (the `is None` guard is dead
code, see the module comment). -/
def getNextRefreshTime (s : PMState) : Nat :=
  s.timestamp + proxyExpiration

/-- The dictionary returned by `ProxyManager.get_stats`
(source lines 272-280). -/
structure Stats where
  proxy_count : Nat
  last_refresh : Nat
  next_refresh : Nat
  refresh_count : Nat
deriving DecidableEq

/-- `ProxyManager.get_stats` (source lines 272-280). -/
def getStats (s : PMState) : Stats :=
  { proxy_count := s.proxies.length
    last_refresh := s.timestamp
    next_refresh := getNextRefreshTime s
    refresh_count := s.refreshCount }

/-- The result-processing loop of `ProxyManager._test_proxy_batch`
(source lines 203-215): walk the proxies paired with their
`asyncio.gather(..., return_exceptions=True)` results; a result that is an
exception is skipped (`continue`), a truthy result appends the proxy. -/
def collectValid : List (PyStr × Except PyExn Bool) → List PyStr
  | [] => []
  | (_, .error _) :: rest => collectValid rest
  | (p, .ok b) :: rest => if b then p :: collectValid rest else collectValid rest

/-- `ProxyManager._test_proxy_batch` (source lines 190-219) on its success
path: one gather result per proxy, positionally aligned (`results[i]`
against `proxies[i]`), then the collecting loop. The outer `except` (lines
217-219, returning `[]`) catches only failures of task creation or of
`gather` itself — per-candidate validator exceptions are returned as
values by `return_exceptions=True` and never trigger it. -/
def testProxyBatch (proxies : List PyStr) (results : List (Except PyExn Bool)) :
    List PyStr :=
  collectValid (proxies.zip results)

/-- `ProxyManager._test_proxy_sync` (source lines 221-233): sequential
fallback; each candidate is validated inside its own `try`, a truthy
result appends the candidate and an exception only logs and moves on. The
validator outcome for each candidate is the oracle `validate`. -/
def testProxySync (proxies : List PyStr) (validate : PyStr → Except PyExn Bool) :
    List PyStr :=
  match proxies with
  | [] => []
  | p :: rest =>
      match validate p with
      | .ok b =>
          if b then p :: testProxySync rest validate
          else testProxySync rest validate
      | .error _ => testProxySync rest validate

/-- One record of the proxifly JSON list consumed by
`ProxyManager.__get_proxies_2`: a dict that may or may not carry the
`"ip"` and `"port"` keys (values already rendered through `str(...)`). -/
structure JsonProxy where
  ip : Option PyStr
  port : Option PyStr
deriving DecidableEq

/-- Python errors that `__get_proxies_2` can raise to its caller. -/
inductive PyRunError where
  | unboundLocalError : PyRunError
  | keyError : PyRunError
deriving DecidableEq

/-- The list comprehension of `__get_proxies_2` (source lines 122-126):
`[str(proxy["ip"]) + ":" + str(proxy["port"]) for proxy in proxies if "ip"
in proxy]` — records without `"ip"` are filtered out; a record with `"ip"`
but no `"port"` raises `KeyError` (not a `RequestException`, so it is not
caught). -/
def extractIpList : List JsonProxy → Except PyRunError (List PyStr)
  | [] => .ok []
  | p :: rest =>
      match p.ip with
      | none => extractIpList rest
      | some ipv =>
          match p.port with
          | none => .error .keyError
          | some portv =>
              (extractIpList rest).map (fun l => (ipv ++ ':' :: portv) :: l)

/-- `ProxyManager.__get_proxies_2` (source lines 106-131), with the Python
local-variable semantics of `ip_list` made explicit: the name is bound
only if the `try` body reached the comprehension's assignment. On a
`RequestException` the `except` merely prints, control falls through to
`return ip_list`, and the unbound name raises `UnboundLocalError`. The
`download` oracle is the combined outcome of `requests.get`,
`raise_for_status` and `response.json()`. -/
def getProxies2 (download : Except Unit (List JsonProxy)) :
    Except PyRunError (List PyStr) :=
  let ip_list : Option (Except PyRunError (List PyStr)) :=
    match download with
    | .ok proxies => some (extractIpList proxies)
    | .error _ => none
  match ip_list with
  | some r => r
  | none => .error .unboundLocalError

/-- States of the pool manager reachable from process start: the initial
class state followed by any sequence of the two mutating entry points
(`proxies_async` and `refresh_proxies`; `get_random_proxy` and `get_stats`
assign nothing). -/
inductive Reachable : PMState → Prop where
  | init (t0 : Nat) : Reachable (initState t0)
  | readStep {s : PMState} (now : Nat) (outcome : FetchOutcome) :
      Reachable s → Reachable (proxiesAsync s now outcome).2
  | refreshStep {s : PMState} (now : Nat) (outcome : FetchOutcome) :
      Reachable s → Reachable (refreshProxies s now outcome)

/-!
## Object-identity model of `proxies_async`

Python lists are heap objects and `return cls._proxies` (source line 87)
returns the object reference held by the class attribute, not a copy. To
settle aliasing claims the state is refined with an explicit heap of list
objects: a cell index is a reference, `_proxies` holds a reference, every
evaluation of a list-producing expression (`[]` on line 74, the list built
by `__get_proxies`) allocates a fresh cell, and assignment to
`cls._proxies` rebinds the reference without writing any existing cell.
-/

/-- The heap of list objects: cell `i` of `cells` is the list object with
reference `i`. Allocation appends, so existing references stay valid. -/
structure RefState where
  cells : List (List PyStr)
  poolRef : Nat
  timestamp : Nat
deriving DecidableEq

/-- Read the list object a reference points to. -/
def derefCell (s : RefState) (r : Nat) : List PyStr :=
  s.cells.getD r []

/-- The list object currently bound to `cls._proxies`. -/
def derefPool (s : RefState) : List PyStr :=
  derefCell s s.poolRef

/-- `ProxyManager.proxies_async` over the heap model. Allocation of a
fresh list object appends a cell to the heap and takes the old heap
length as the new reference. The staleness clear (line 74) allocates a
fresh `[]` and rebinds `_proxies`; the refresh branch allocates a fresh
cell for the fetched list and rebinds `_proxies`; `return cls._proxies`
(line 87) returns the reference itself. -/
def proxiesAsyncRef (s : RefState) (now : Nat) (outcome : FetchOutcome) :
    Nat × RefState :=
  let s1 :=
    if (derefPool s).isEmpty then s
    else if s.timestamp + proxyExpiration < now then
      { s with cells := s.cells ++ [[]], poolRef := s.cells.length }
    else s
  if (derefPool s1).isEmpty then
    (s1.cells.length,
     { cells := s1.cells ++ [getProxies outcome], poolRef := s1.cells.length,
       timestamp := now })
  else (s1.poolRef, s1)

/-!
## Thread interleaving of two unlocked callers

`proxies_async` is also reachable from the synchronous wrapper `proxies()`
(source lines 57-63), which drives it with `asyncio.run` on the calling
thread; two threads then execute the body concurrently over the shared
class attributes. The `async with cls.__lock` that would serialize them
(line 70) is commented out, and the fetch between the staleness check and
the store is blocking network I/O (during which the GIL is released), so
the schedule in which both threads finish `checkPhase` before either
stores is realizable. `twoCallerUnlockedFetches` counts the fetches
performed under that schedule: a caller fetches exactly when the pool it
observes after its own check phase is empty (source line 76). -/
def twoCallerUnlockedFetches (s : PMState) (now : Nat) : Nat :=
  let s1 := checkPhase s now
  let d1 := s1.proxies.isEmpty
  let s2 := checkPhase s1 now
  let d2 := s2.proxies.isEmpty
  (if d1 then 1 else 0) + (if d2 then 1 else 0)

/-!
## Helper lemmas
-/

theorem pySplitAux_ne_nil (sep : Char) (l acc : List Char) :
    pySplitAux sep l acc ≠ [] := by
  induction l generalizing acc with
  | nil => simp [pySplitAux]
  | cons c cs ih =>
      simp only [pySplitAux]
      split
      · simp
      · exact ih _

theorem joinWith_cons (sep : Char) (p : PyStr) (ps : List PyStr) (h : ps ≠ []) :
    joinWith sep (p :: ps) = p ++ sep :: joinWith sep ps := by
  cases ps with
  | nil => exact absurd rfl h
  | cons q qs => rfl

theorem joinWith_pySplitAux (sep : Char) (l acc : List Char) :
    joinWith sep (pySplitAux sep l acc) = acc.reverse ++ l := by
  induction l generalizing acc with
  | nil => simp [pySplitAux, joinWith]
  | cons c cs ih =>
      simp only [pySplitAux]
      split
      · rename_i h
        rw [joinWith_cons sep _ _ (pySplitAux_ne_nil sep cs [])]
        rw [ih []]
        simp [h]
      · rw [ih (c :: acc)]
        simp

theorem pySplitAux_length (sep : Char) (l acc : List Char) :
    (pySplitAux sep l acc).length = l.count sep + 1 := by
  induction l generalizing acc with
  | nil => simp [pySplitAux]
  | cons c cs ih =>
      simp only [pySplitAux]
      split
      · rename_i h
        simp [ih [], List.count_cons, h]
      · rename_i h
        rw [ih (c :: acc)]
        have hcs : ¬ (sep = c) := fun hh => h hh.symm
        simp [List.count_cons, hcs]

/-- The predicate a candidate must satisfy to survive testing: its
validation completed without an exception and returned a truthy value. -/
def passesValidation (validate : PyStr → Except PyExn Bool) (p : PyStr) : Bool :=
  match validate p with
  | .ok true => true
  | _ => false

theorem passesValidation_iff (validate : PyStr → Except PyExn Bool) (p : PyStr) :
    passesValidation validate p = true ↔ validate p = .ok true := by
  unfold passesValidation
  cases hv : validate p with
  | error e => simp
  | ok b => cases b <;> simp

theorem testProxyBatch_eq_filter (validate : PyStr → Except PyExn Bool)
    (proxies : List PyStr) :
    testProxyBatch proxies (proxies.map validate) =
      proxies.filter (passesValidation validate) := by
  induction proxies with
  | nil => rfl
  | cons p ps ih =>
      simp only [testProxyBatch, List.map_cons, List.zip_cons_cons,
        List.filter_cons] at *
      cases hv : validate p with
      | error e => simp [collectValid, ih, passesValidation, hv]
      | ok b => cases b <;> simp [collectValid, ih, passesValidation, hv]

theorem testProxySync_eq_filter (validate : PyStr → Except PyExn Bool)
    (proxies : List PyStr) :
    testProxySync proxies validate = proxies.filter (passesValidation validate) := by
  induction proxies with
  | nil => rfl
  | cons p ps ih =>
      simp only [testProxySync, List.filter_cons]
      cases hv : validate p with
      | error e => simp [ih, passesValidation, hv]
      | ok b => cases b <;> simp [ih, passesValidation, hv]

theorem checkPhase_refreshCount (s : PMState) (now : Nat) :
    (checkPhase s now).refreshCount = s.refreshCount := by
  unfold checkPhase
  split
  · rfl
  · split <;> rfl

theorem proxiesAsync_refreshCount (s : PMState) (now : Nat) (o : FetchOutcome) :
    (proxiesAsync s now o).2.refreshCount = s.refreshCount := by
  unfold proxiesAsync storePhase
  by_cases h : (checkPhase s now).proxies.isEmpty
  · simp [h, checkPhase_refreshCount]
  · simp [h, checkPhase_refreshCount]

theorem refreshProxies_refreshCount (s : PMState) (now : Nat) (o : FetchOutcome) :
    (refreshProxies s now o).refreshCount = s.refreshCount := rfl

/-!
## Concrete sample data used by the claim theorems and witnesses
-/

/-- A candidate endpoint that validates successfully. -/
def sampleProxyA : PyStr := "1.1.1.1:80".toList

/-- A candidate endpoint whose validation returns `False`. -/
def sampleProxyB : PyStr := "2.2.2.2:80".toList

/-- A candidate endpoint whose validation raises. -/
def sampleProxyC : PyStr := "3.3.3.3:80".toList

/-- A concrete validator oracle: passes `sampleProxyA`, raises on
`sampleProxyC`, fails everything else. -/
def sampleValidate (p : PyStr) : Except PyExn Bool :=
  if p = sampleProxyA then .ok true
  else if p = sampleProxyC then .error .exn
  else .ok false

/-- The candidate list the sample validator is run against. -/
def sampleCandidates : List PyStr := [sampleProxyA, sampleProxyB, sampleProxyC]

/-- The response body of the spec scenario for claim C1:
`"1.1.1.1:80\n2.2.2.2:80"`. -/
def c1Body : PyStr := "1.1.1.1:80\n2.2.2.2:80".toList

/-- A populated pool whose timestamp has expired by `now = 1000`. -/
def c2PreState : PMState :=
  { proxies := [sampleProxyA], timestamp := 0, refreshCount := 0 }

/-- A heap state with one live pool object holding one proxy, fresh at
`now = 100`. -/
def c9State : RefState :=
  { cells := [[sampleProxyA]], poolRef := 0, timestamp := 100 }

/-!
## Claim theorems
-/

/-- Claim C1. The claim states that after every successful refresh cycle
the cached pool is the validated subset of the fetched candidate list.
The code violates it: the `__test_proxy` call in `proxies_async` (source
line 82) is commented out, so the refresh stores the fetched list
untested. On the spec's own scenario (fetch returns
`"1.1.1.1:80\n2.2.2.2:80"`, validator passes only the first), the stored
pool is both candidates, it contains the endpoint whose validation
returns `False`, and it differs from the validated subset that the batch
tester would have produced. -/
theorem c1_pool_stored_untested :
    (proxiesAsync (initState 0) 5 (.ok c1Body)).2.proxies =
      [sampleProxyA, sampleProxyB] ∧
    sampleValidate sampleProxyB = .ok false ∧
    sampleProxyB ∈ (proxiesAsync (initState 0) 5 (.ok c1Body)).2.proxies ∧
    testProxyBatch (pySplit '\n' c1Body)
        ((pySplit '\n' c1Body).map sampleValidate) = [sampleProxyA] ∧
    (proxiesAsync (initState 0) 5 (.ok c1Body)).2.proxies ≠
      testProxyBatch (pySplit '\n' c1Body)
        ((pySplit '\n' c1Body).map sampleValidate) := by decide

/-- Claim C2, counterexample. The claim states that a refresh cycle whose
fetch fails leaves a populated pool and its timestamp unchanged. Starting
from the populated, expired state `c2PreState` at `now = 1000` with the
fetch raising, the cycle empties the pool and rewrites the timestamp. -/
theorem c2_counterexample_fetch_failure_mutates :
    ¬ ((proxiesAsync c2PreState 1000 .error).2.proxies = c2PreState.proxies ∧
       (proxiesAsync c2PreState 1000 .error).2.timestamp = c2PreState.timestamp) := by
  decide

/-- Claim C2 as amended: when a refresh cycle runs on a populated but
expired pool and the fetch fails, `__get_proxies` returns `[]`, the cycle
stores that empty list as the new pool and resets the timestamp to the
cycle time — the stale pool is discarded, not served. -/
theorem c2_amended_fetch_failure_clears_pool (s : PMState) (now : Nat)
    (hne : s.proxies ≠ []) (hexp : s.timestamp + proxyExpiration < now) :
    (proxiesAsync s now .error).2.proxies = [] ∧
    (proxiesAsync s now .error).2.timestamp = now := by
  have hck : checkPhase s now = { s with proxies := [] } := by
    unfold checkPhase
    rw [if_neg (by simp [hne]), if_pos hexp]
  unfold proxiesAsync storePhase getProxies
  simp [hck]

/-- Witness for the amended claim C2 at the concrete expired state. -/
theorem c2_amended_witness :
    (proxiesAsync c2PreState 1000 .error).2.proxies = [] ∧
    (proxiesAsync c2PreState 1000 .error).2.timestamp = 1000 :=
  c2_amended_fetch_failure_clears_pool c2PreState 1000 (by decide) (by decide)

/-- Claim C3. The claim states that N concurrent stale reads trigger
exactly one refresh cycle, guarded by a mutual-exclusion lock. The lock
acquisition (`async with cls.__lock`, source line 70) is commented out,
so two callers interleaved between the staleness check and the store —
realizable from the threaded `proxies()` wrapper, whose fetch is blocking
I/O — both observe an empty pool and both fetch: the schedule performs 2
fetch cycles, not 1. -/
theorem c3_unlocked_duplicate_fetches :
    twoCallerUnlockedFetches (initState 0) 5 = 2 ∧
    twoCallerUnlockedFetches (initState 0) 5 ≠ 1 := by decide

/-- Claim C4, counterexample. The claim states that each successful
refresh cycle increments `refresh_count` by exactly 1. After one
successful `refresh_proxies` cycle from the initial state, the counter
reported by `get_stats` is still 0, not 1: no statement in the source
ever writes `__refresh_count`. -/
theorem c4_counterexample_count_not_incremented :
    (getStats (refreshProxies (initState 0) 5 (.ok c1Body))).refresh_count = 0 ∧
    (getStats (refreshProxies (initState 0) 5 (.ok c1Body))).refresh_count ≠ 1 := by
  decide

/-- Claim C4 as amended: no operation ever modifies the refresh counter,
so in every reachable state `get_stats` reports `refresh_count = 0`. -/
theorem c4_amended_refresh_count_always_zero {s : PMState} (h : Reachable s) :
    (getStats s).refresh_count = 0 := by
  induction h with
  | init t0 => rfl
  | readStep now outcome _ ih =>
      show (proxiesAsync _ now outcome).2.refreshCount = 0
      rw [proxiesAsync_refreshCount]
      exact ih
  | refreshStep now outcome _ ih =>
      show (refreshProxies _ now outcome).refreshCount = 0
      rw [refreshProxies_refreshCount]
      exact ih

/-- Witness for the amended claim C4 at a concrete reachable state. -/
theorem c4_amended_witness : (getStats (initState 7)).refresh_count = 0 :=
  c4_amended_refresh_count_always_zero (Reachable.init 7)

/-- Claim C5, counterexample. The claim states the fetcher's result
contains no empty strings (blank lines discarded). For the successful
response body `"1.1.1.1:80\n"` the source's `proxy_text.split("\n")`
yields `["1.1.1.1:80", ""]`: the empty string is in the result. -/
theorem c5_counterexample_blank_kept :
    [] ∈ getProxies (.ok "1.1.1.1:80\n".toList) ∧
    getProxies (.ok "1.1.1.1:80\n".toList) = [sampleProxyA, []] := by decide

/-- Claim C5 as amended: on success the fetcher returns the body split on
newline with empty segments retained — joining the candidates back with
newline recovers the body exactly, and the number of candidates is one
more than the number of newline characters in the body (so a trailing
newline or a blank line contributes an empty-string candidate). -/
theorem c5_amended_split_keeps_blanks (body : PyStr) :
    joinWith '\n' (getProxies (.ok body)) = body ∧
    (getProxies (.ok body)).length = body.count '\n' + 1 := by
  constructor
  · simpa using joinWith_pySplitAux '\n' body []
  · simpa using pySplitAux_length '\n' body []

/-- Claim C6: in every pool-manager state, the `next_refresh` reported by
`get_stats` is the `last_refresh` reported by the same call plus the
configured expiration window (`_get_next_refresh_time` computes
`__proxy_timestamp + __proxy_expiration` and `last_refresh` reports
`__proxy_timestamp`). -/
theorem c6_stats_next_refresh_relation (s : PMState) :
    (getStats s).next_refresh = (getStats s).last_refresh + proxyExpiration := rfl

/-- Claim C7: `get_random_proxy` on an empty pool returns `None` (and
`None` arises only then, so the empty signal is never an exception: the
`random.choice` call is guarded by the emptiness check); the method
assigns nothing, so the state — in particular the pool — is unchanged and
no refresh runs; any returned proxy is a member of the current pool. -/
theorem c7_random_proxy_empty_signal (s : PMState) (pick : Nat) :
    (s.proxies = [] → (getRandomProxy s pick).1 = none) ∧
    (getRandomProxy s pick).2 = s ∧
    (∀ p, (getRandomProxy s pick).1 = some p → p ∈ s.proxies) ∧
    (s.proxies ≠ [] → ∃ p, (getRandomProxy s pick).1 = some p) := by
  unfold getRandomProxy
  by_cases h : s.proxies.isEmpty
  · have hnil : s.proxies = [] := by simpa [List.isEmpty_iff] using h
    refine ⟨fun _ => by simp [h], by simp [h], ?_, ?_⟩
    · intro p hp
      simp [h] at hp
    · intro hne
      exact absurd hnil hne
  · have hne : s.proxies ≠ [] := by simpa [List.isEmpty_iff] using h
    have hlt : pick % s.proxies.length < s.proxies.length :=
      Nat.mod_lt _ (List.length_pos.mpr hne)
    refine ⟨fun hnil => absurd hnil hne, by simp [h], ?_, ?_⟩
    · intro p hp
      simp only [h, if_neg, Bool.false_eq_true, if_false] at hp
      exact List.get?_mem hp
    · intro _
      refine ⟨s.proxies.get ⟨pick % s.proxies.length, hlt⟩, ?_⟩
      simp [h, List.get?_eq_get hlt]

/-- Witness for claim C7 at the concrete empty initial state. -/
theorem c7_witness :
    (getRandomProxy (initState 0) 5).1 = none ∧
    (getRandomProxy (initState 0) 5).2 = initState 0 :=
  ⟨(c7_random_proxy_empty_signal (initState 0) 5).1 rfl,
   (c7_random_proxy_empty_signal (initState 0) 5).2.1⟩

/-- Claim C8: for every candidate list and validator outcome, the batch
tester's result (and the sequential fallback's result) contains only
candidates whose validation returned `True` — so never one marked
`False`, and never one that raised — and every candidate whose validation
returned `True` is still in the result, so one candidate's exception
excludes only that candidate. -/
theorem c8_batch_excludes_only_failures (validate : PyStr → Except PyExn Bool)
    (proxies : List PyStr) :
    (∀ p, p ∈ testProxyBatch proxies (proxies.map validate) →
        validate p = .ok true) ∧
    (∀ p, p ∈ proxies → validate p = .ok true →
        p ∈ testProxyBatch proxies (proxies.map validate)) ∧
    (∀ p, p ∈ testProxySync proxies validate → validate p = .ok true) ∧
    (∀ p, p ∈ proxies → validate p = .ok true →
        p ∈ testProxySync proxies validate) := by
  rw [testProxyBatch_eq_filter, testProxySync_eq_filter]
  refine ⟨?_, ?_, ?_, ?_⟩ <;> intro p
  · intro hp
    exact (passesValidation_iff validate p).mp (List.of_mem_filter hp)
  · intro hmem hv
    exact List.mem_filter.mpr ⟨hmem, (passesValidation_iff validate p).mpr hv⟩
  · intro hp
    exact (passesValidation_iff validate p).mp (List.of_mem_filter hp)
  · intro hmem hv
    exact List.mem_filter.mpr ⟨hmem, (passesValidation_iff validate p).mpr hv⟩

/-- Witness for claim C8 on the concrete sample batch: the passing
candidate is kept even though another candidate raised, and the failing
candidate is excluded. -/
theorem c8_witness :
    sampleProxyA ∈ testProxyBatch sampleCandidates
      (sampleCandidates.map sampleValidate) ∧
    sampleProxyB ∉ testProxyBatch sampleCandidates
      (sampleCandidates.map sampleValidate) ∧
    sampleProxyC ∉ testProxyBatch sampleCandidates
      (sampleCandidates.map sampleValidate) := by
  refine ⟨(c8_batch_excludes_only_failures sampleValidate sampleCandidates).2.1
      sampleProxyA (by decide) (by decide), ?_, ?_⟩
  · intro hmem
    have := (c8_batch_excludes_only_failures sampleValidate sampleCandidates).1
      sampleProxyB hmem
    exact absurd this (by decide)
  · intro hmem
    have := (c8_batch_excludes_only_failures sampleValidate sampleCandidates).1
      sampleProxyC hmem
    exact absurd this (by decide)

/-- Claim C9, counterexample. The claim states a read never hands the
caller a reference to the pool manager's own mutable list. On the fresh
populated heap state `c9State`, `proxies_async` returns exactly the
reference the class attribute holds (`return cls._proxies`), aliasing the
pool manager's own list object. -/
theorem c9_counterexample_read_returns_alias :
    (proxiesAsyncRef c9State 100 .error).1 = c9State.poolRef ∧
    (proxiesAsyncRef c9State 100 .error).2 = c9State := by decide

/-- Claim C9 as amended: every read returns the reference currently bound
to `cls._proxies` itself — never a copy — but refresh cycles only
allocate fresh list objects and rebind the attribute, never writing an
existing heap cell, so the list object a reader already holds is not
mutated by a later refresh. -/
theorem c9_amended_read_aliases_pool (s : RefState) (now : Nat) (o : FetchOutcome) :
    (proxiesAsyncRef s now o).1 = (proxiesAsyncRef s now o).2.poolRef ∧
    ∀ i, i < s.cells.length →
      (proxiesAsyncRef s now o).2.cells[i]? = s.cells[i]? := by
  by_cases h1 : (derefPool s).isEmpty
  · have hres : proxiesAsyncRef s now o =
        (s.cells.length,
         { cells := s.cells ++ [getProxies o], poolRef := s.cells.length,
           timestamp := now }) := by
      simp [proxiesAsyncRef, h1]
    rw [hres]
    exact ⟨rfl, fun i hi => List.getElem?_append_left hi⟩
  · by_cases h2 : s.timestamp + proxyExpiration < now
    · have hmid : derefPool
          { s with cells := s.cells ++ [[]], poolRef := s.cells.length } =
            ([] : List PyStr) := by
        unfold derefPool derefCell
        simp [List.getD_eq_getElem?_getD, List.getElem?_concat_length]
      have hres : proxiesAsyncRef s now o =
          ((s.cells ++ [[]]).length,
           { cells := (s.cells ++ [[]]) ++ [getProxies o],
             poolRef := (s.cells ++ [[]]).length, timestamp := now }) := by
        simp [proxiesAsyncRef, h1, h2, hmid]
      rw [hres]
      refine ⟨rfl, fun i hi => ?_⟩
      have hi2 : i < (s.cells ++ [[]]).length := by
        simp only [List.length_append, List.length_cons, List.length_nil]
        omega
      rw [List.getElem?_append_left hi2, List.getElem?_append_left hi]
    · have hres : proxiesAsyncRef s now o = (s.poolRef, s) := by
        simp [proxiesAsyncRef, h1, h2]
      rw [hres]
      exact ⟨rfl, fun i _ => rfl⟩

/-- Witness for the amended claim C9 at the concrete heap state. -/
theorem c9_amended_witness :
    (proxiesAsyncRef c9State 100 .error).1 =
      (proxiesAsyncRef c9State 100 .error).2.poolRef ∧
    (proxiesAsyncRef c9State 100 .error).2.cells[0]? = c9State.cells[0]? :=
  ⟨(c9_amended_read_aliases_pool c9State 100 .error).1,
   (c9_amended_read_aliases_pool c9State 100 .error).2 0 (by decide)⟩

/-- Claim C10: whenever the download of the fallback JSON source fails
(`requests.exceptions.RequestException`), `__get_proxies_2` reaches
`return ip_list` with the local `ip_list` never assigned — the `except`
block only prints — and so raises `UnboundLocalError` instead of
returning a sequence or a catchable fetch error. -/
theorem c10_fallback_unbound_local :
    getProxies2 (.error ()) = .error .unboundLocalError := rfl
